import Mathlib

/-!
Shallow embedding of `src/homework.py`, a fitness-tracker statistics module:
three workout calculators (running, sports walking, swimming) over a shared
base class, a report value object with a fixed-template formatter, and a
dispatch-by-code factory.  Numeric values are modelled by `ℚ`; Python's `/`,
which raises `ZeroDivisionError` on a zero divisor, is modelled by `pyDiv`
returning `Option ℚ` where the divisor is a runtime value (divisions by the
nonzero literal constants `M_IN_KM = 1000`, `CM_IN_M = 100`, `MIN_IN_H = 60`
are total and kept as plain `ℚ` division).
-/

namespace Homework

/-- Python division: `ZeroDivisionError` on a zero divisor is modelled as
`none`. -/
def pyDiv (a b : ℚ) : Option ℚ :=
  if b = 0 then none else some (a / b)

/-- `InfoMessage`: the report value object (`training_type`, `duration`,
`distance`, `speed`, `calories`). -/
structure InfoMessage where
  training_type : String
  duration : ℚ
  distance : ℚ
  speed : ℚ
  calories : ℚ
deriving Repr, DecidableEq

/-- Zero-pad a natural number below 1000 to three digits (the fractional part
of a `.3f` rendering). -/
def pad3 (n : Nat) : String :=
  if n < 10 then "00" ++ toString n
  else if n < 100 then "0" ++ toString n
  else toString n

/-- Render a rational with three digits after the decimal point, as Python's
`.3f` format specifier does (rounding to the nearest thousandth). -/
def format3 (q : ℚ) : String :=
  let m : Int := round (q * 1000)
  let sign := if m < 0 then "-" else ""
  sign ++ toString (m.natAbs / 1000) ++ "." ++ pad3 (m.natAbs % 1000)

/-- `InfoMessage.get_message`: instantiate the fixed `MESSAGE` template with
the report's five fields, each numeric field rendered at three decimals. -/
def InfoMessage.get_message (m : InfoMessage) : String :=
  "Тип тренировки: " ++ m.training_type
    ++ "; Длительность: " ++ format3 m.duration
    ++ " ч.; Дистанция: " ++ format3 m.distance
    ++ " км; Ср. скорость: " ++ format3 m.speed
    ++ " км/ч; Потрачено ккал: " ++ format3 m.calories ++ "."

/-- `Training`: base-class state, set once by `__init__`. -/
structure Training where
  action : ℚ
  duration : ℚ
  weight : ℚ
deriving Repr, DecidableEq

namespace Training

def LEN_STEP : ℚ := 0.65
def M_IN_KM : ℚ := 1000
def MIN_IN_H : ℚ := 60
def KMH_IN_MSEC : ℚ := 0.278
def CM_IN_M : ℚ := 100

/-- `Training.get_distance`: `action * LEN_STEP / M_IN_KM`. -/
def get_distance (t : Training) : ℚ :=
  t.action * LEN_STEP / M_IN_KM

/-- `Training.get_mean_speed`: `get_distance() / duration` (raises on zero
duration). -/
def get_mean_speed (t : Training) : Option ℚ :=
  pyDiv t.get_distance t.duration

end Training

/-- `Running`: no extra state over the base class. -/
structure Running extends Training
deriving Repr, DecidableEq

namespace Running

def COEF_1 : ℚ := 18
def COEF_2 : ℚ := 1.79

/-- Inherited `Training.get_distance`. -/
def get_distance (t : Running) : ℚ :=
  t.toTraining.get_distance

/-- Inherited `Training.get_mean_speed`. -/
def get_mean_speed (t : Running) : Option ℚ :=
  t.toTraining.get_mean_speed

/-- `Running.get_spent_calories`:
`(COEF_1 * mean_speed + COEF_2) * weight / M_IN_KM * (duration * MIN_IN_H)`. -/
def get_spent_calories (t : Running) : Option ℚ :=
  (get_mean_speed t).map fun v =>
    (COEF_1 * v + COEF_2) * t.weight / Training.M_IN_KM
      * (t.duration * Training.MIN_IN_H)

end Running

/-- `SportsWalking`: base state plus `height`. -/
structure SportsWalking extends Training where
  height : ℚ
deriving Repr, DecidableEq

namespace SportsWalking

def CALORIES_WEIGHT_MULTIPLIER : ℚ := 0.035
def CALORIES_SPEED_HEIGHT_MULTIPLIER : ℚ := 0.029

/-- Inherited `Training.get_distance`. -/
def get_distance (t : SportsWalking) : ℚ :=
  t.toTraining.get_distance

/-- Inherited `Training.get_mean_speed`. -/
def get_mean_speed (t : SportsWalking) : Option ℚ :=
  t.toTraining.get_mean_speed

/-- `SportsWalking.get_spent_calories`:
`(CALORIES_WEIGHT_MULTIPLIER * weight
  + (mean_speed * KMH_IN_MSEC) ** 2 / (height / CM_IN_M)
    * CALORIES_SPEED_HEIGHT_MULTIPLIER * weight) * (duration * MIN_IN_H)`;
the division by `height / CM_IN_M` raises when `height` is zero. -/
def get_spent_calories (t : SportsWalking) : Option ℚ := do
  let v ← get_mean_speed t
  let q ← pyDiv ((v * Training.KMH_IN_MSEC) ^ 2) (t.height / Training.CM_IN_M)
  pure ((CALORIES_WEIGHT_MULTIPLIER * t.weight
          + q * CALORIES_SPEED_HEIGHT_MULTIPLIER * t.weight)
        * (t.duration * Training.MIN_IN_H))

end SportsWalking

/-- `Swimming`: base state plus `length_pool` and `count_pool`. -/
structure Swimming extends Training where
  length_pool : ℚ
  count_pool : ℚ
deriving Repr, DecidableEq

namespace Swimming

def LEN_STEP : ℚ := 1.38
def CALORIES_COTF_5 : ℚ := 1.1
def CALORIES_COTF_6 : ℚ := 2

/-- `Training.get_distance` resolved with the overridden class attribute
`Swimming.LEN_STEP = 1.38`. -/
def get_distance (t : Swimming) : ℚ :=
  t.action * LEN_STEP / Training.M_IN_KM

/-- `Swimming.get_mean_speed` (override):
`length_pool * count_pool / M_IN_KM / duration`. -/
def get_mean_speed (t : Swimming) : Option ℚ :=
  pyDiv (t.length_pool * t.count_pool / Training.M_IN_KM) t.duration

/-- `Swimming.get_spent_calories`:
`(mean_speed + CALORIES_COTF_5) * CALORIES_COTF_6 * weight * duration`. -/
def get_spent_calories (t : Swimming) : Option ℚ :=
  (get_mean_speed t).map fun v =>
    (v + CALORIES_COTF_5) * CALORIES_COTF_6 * t.weight * t.duration

end Swimming

/-- A constructed calculator of any of the three concrete classes (the
dynamic type of the object `read_package` returns). -/
inductive AnyTraining where
  | run : Running → AnyTraining
  | wlk : SportsWalking → AnyTraining
  | swm : Swimming → AnyTraining
deriving Repr, DecidableEq

namespace AnyTraining

/-- `type(self).__name__`: the concrete class name. -/
def class_name : AnyTraining → String
  | .run _ => "Running"
  | .wlk _ => "SportsWalking"
  | .swm _ => "Swimming"

def duration : AnyTraining → ℚ
  | .run t => t.duration
  | .wlk t => t.duration
  | .swm t => t.duration

/-- Dynamic dispatch of `get_distance`. -/
def get_distance : AnyTraining → ℚ
  | .run t => t.get_distance
  | .wlk t => t.get_distance
  | .swm t => t.get_distance

/-- Dynamic dispatch of `get_mean_speed`. -/
def get_mean_speed : AnyTraining → Option ℚ
  | .run t => t.get_mean_speed
  | .wlk t => t.get_mean_speed
  | .swm t => t.get_mean_speed

/-- Dynamic dispatch of `get_spent_calories`. -/
def get_spent_calories : AnyTraining → Option ℚ
  | .run t => t.get_spent_calories
  | .wlk t => t.get_spent_calories
  | .swm t => t.get_spent_calories

/-- `Training.show_training_info`: build the `InfoMessage` from
`type(self).__name__`, `duration`, `get_distance()`, `get_mean_speed()` and
`get_spent_calories()`; any raising sub-computation propagates. -/
def show_training_info (t : AnyTraining) : Option InfoMessage := do
  let v ← t.get_mean_speed
  let c ← t.get_spent_calories
  pure ⟨t.class_name, t.duration, t.get_distance, v, c⟩

end AnyTraining

/-- `read_package`: map a workout code to the matching class and construct it
from the readings positionally.  An unrecognized code raises
`KeyError(f'Не верный тип тренировки - {workout_type}')`; a reading list
whose length does not match the chosen constructor's arity raises
`TypeError`. -/
def read_package (workout_type : String) (data : List ℚ) :
    Except String AnyTraining :=
  if workout_type = "SWM" then
    match data with
    | [a, d, w, lp, cp] => .ok (.swm ⟨⟨a, d, w⟩, lp, cp⟩)
    | _ => .error "TypeError"
  else if workout_type = "RUN" then
    match data with
    | [a, d, w] => .ok (.run ⟨⟨a, d, w⟩⟩)
    | _ => .error "TypeError"
  else if workout_type = "WLK" then
    match data with
    | [a, d, w, h] => .ok (.wlk ⟨⟨a, d, w⟩, h⟩)
    | _ => .error "TypeError"
  else
    .error ("Не верный тип тренировки - " ++ workout_type)

/-- State-passing rendering of `get_distance`: the method body assigns to no
attribute of `self`, so it returns the receiver unchanged beside its
result. -/
def AnyTraining.get_distance_st (t : AnyTraining) : ℚ × AnyTraining :=
  (t.get_distance, t)

/-- State-passing rendering of `get_mean_speed` (no attribute of `self` is
assigned). -/
def AnyTraining.get_mean_speed_st (t : AnyTraining) : Option ℚ × AnyTraining :=
  (t.get_mean_speed, t)

/-- State-passing rendering of `get_spent_calories` (no attribute of `self`
is assigned). -/
def AnyTraining.get_spent_calories_st (t : AnyTraining) :
    Option ℚ × AnyTraining :=
  (t.get_spent_calories, t)

/-- State-passing rendering of `show_training_info` (no attribute of `self`
is assigned). -/
def AnyTraining.show_training_info_st (t : AnyTraining) :
    Option InfoMessage × AnyTraining :=
  (t.show_training_info, t)

/-- State-passing rendering of `InfoMessage.get_message` (the dataclass is
read, never written). -/
def InfoMessage.get_message_st (m : InfoMessage) : String × InfoMessage :=
  (m.get_message, m)

end Homework

open Homework

/-! ## Shared helper lemmas -/

/-- Helper: `pyDiv` succeeds exactly when the divisor is nonzero. -/
lemma pyDiv_eq_some (a b : ℚ) (h : b ≠ 0) : pyDiv a b = some (a / b) := by
  simp [pyDiv, h]

/-- Helper: a successfully built report carries `type(self).__name__` as its
training-type field. -/
lemma show_training_info_type_eq (t : AnyTraining) (m : InfoMessage)
    (h : t.show_training_info = some m) : m.training_type = t.class_name := by
  unfold AnyTraining.show_training_info at h
  cases hv : t.get_mean_speed with
  | none => rw [hv] at h; simp at h
  | some v =>
    rw [hv] at h
    cases hc : t.get_spent_calories with
    | none => rw [hc] at h; simp at h
    | some c =>
      rw [hc] at h
      simp at h
      subst h
      rfl

/-- Helper: the factory only succeeds on the three recognized codes, and the
constructed object's class matches the code. -/
lemma read_package_class_name (code : String) (data : List ℚ) (t : AnyTraining)
    (h : read_package code data = Except.ok t) :
    (code = "SWM" ∧ t.class_name = "Swimming")
    ∨ (code = "RUN" ∧ t.class_name = "Running")
    ∨ (code = "WLK" ∧ t.class_name = "SportsWalking") := by
  unfold read_package at h
  split_ifs at h with h1 h2 h3
  · split at h
    next => injection h with h; subst h; exact Or.inl ⟨h1, rfl⟩
    next => cases h
  · split at h
    next => injection h with h; subst h; exact Or.inr (Or.inl ⟨h2, rfl⟩)
    next => cases h
  · split at h
    next => injection h with h; subst h; exact Or.inr (Or.inr ⟨h3, rfl⟩)
    next => cases h

/-! ## Claims -/

/-- Claim C1, counterexample to the stated figure: for the running calculator
with action=15000, duration=1, weight=75, `get_spent_calories` returns
797.805, which is not approximately 841.08 (it differs by more than 43). -/
theorem running_example_spec_figure_false :
    Running.get_spent_calories ⟨⟨15000, 1, 75⟩⟩ = some 797.805
    ∧ (797.805 : ℚ) ≠ 841.08
    ∧ |(797.805 : ℚ) - 841.08| > 43 := by
  refine ⟨?_, by norm_num, ?_⟩
  · norm_num [Running.get_spent_calories, Running.get_mean_speed, Training.get_mean_speed,
      Training.get_distance, pyDiv, Running.COEF_1, Running.COEF_2, Training.LEN_STEP,
      Training.M_IN_KM, Training.MIN_IN_H]
  · rw [abs_of_nonpos (by norm_num)]
    norm_num

/-- Claim C1 (amended): for the running calculator with action=15000,
duration=1, weight=75, `get_distance` returns 9.75 km, `get_mean_speed`
returns 9.75 km/h, and `get_spent_calories` returns
(18 × 9.75 + 1.79) × 75 / 1000 × (1 × 60) = 797.805. -/
theorem running_example_values :
    Running.get_distance ⟨⟨15000, 1, 75⟩⟩ = 9.75
    ∧ Running.get_mean_speed ⟨⟨15000, 1, 75⟩⟩ = some 9.75
    ∧ Running.get_spent_calories ⟨⟨15000, 1, 75⟩⟩
        = some ((18 * 9.75 + 1.79) * 75 / 1000 * (1 * 60))
    ∧ ((18 * 9.75 + 1.79) * 75 / 1000 * (1 * 60) : ℚ) = 797.805 := by
  refine ⟨?_, ?_, ?_, by norm_num⟩ <;>
    norm_num [Running.get_distance, Running.get_spent_calories, Running.get_mean_speed,
      Training.get_mean_speed, Training.get_distance, pyDiv, Running.COEF_1, Running.COEF_2,
      Training.LEN_STEP, Training.M_IN_KM, Training.MIN_IN_H]

/-- Claim C2: for every calculator, `get_mean_speed` is `get_distance`
divided by the duration (as the fallible Python division), where the
swimming variant's distance in this quotient is the pool-geometry distance
`length_pool * count_pool / M_IN_KM`. -/
theorem mean_speed_is_distance_over_duration :
    (∀ t : Training, t.get_mean_speed = pyDiv t.get_distance t.duration)
    ∧ (∀ t : Running, t.get_mean_speed = pyDiv t.get_distance t.duration)
    ∧ (∀ t : SportsWalking, t.get_mean_speed = pyDiv t.get_distance t.duration)
    ∧ (∀ t : Swimming, t.get_mean_speed
        = pyDiv (t.length_pool * t.count_pool / Training.M_IN_KM) t.duration) :=
  ⟨fun _ => rfl, fun _ => rfl, fun _ => rfl, fun _ => rfl⟩

/-- Claim C3: `read_package` raises the invalid-workout-code `KeyError` for
every code outside SWM/RUN/WLK, and for each recognized code returns the
matching variant built positionally from the readings. -/
theorem read_package_dispatch :
    (∀ code : String, code ≠ "SWM" → code ≠ "RUN" → code ≠ "WLK" →
        ∀ data : List ℚ,
          read_package code data
            = Except.error ("Не верный тип тренировки - " ++ code))
    ∧ (∀ a d w lp cp : ℚ,
        read_package "SWM" [a, d, w, lp, cp]
          = Except.ok (AnyTraining.swm ⟨⟨a, d, w⟩, lp, cp⟩))
    ∧ (∀ a d w : ℚ,
        read_package "RUN" [a, d, w] = Except.ok (AnyTraining.run ⟨⟨a, d, w⟩⟩))
    ∧ (∀ a d w h : ℚ,
        read_package "WLK" [a, d, w, h]
          = Except.ok (AnyTraining.wlk ⟨⟨a, d, w⟩, h⟩)) := by
  refine ⟨?_, fun a d w lp cp => rfl, fun a d w => rfl, fun a d w h => rfl⟩
  intro code h1 h2 h3 data
  simp [read_package, h1, h2, h3]

/-- Witness for C3 at the concrete code "XYZ" and a recognized code. -/
theorem read_package_dispatch_witness :
    read_package "XYZ" [720, 1, 80]
        = Except.error ("Не верный тип тренировки - " ++ "XYZ")
    ∧ read_package "RUN" [15000, 1, 75]
        = Except.ok (AnyTraining.run ⟨⟨15000, 1, 75⟩⟩) :=
  ⟨read_package_dispatch.1 "XYZ" (by decide) (by decide) (by decide) [720, 1, 80],
   read_package_dispatch.2.2.1 15000 1 75⟩

/-- Claim C4: every swimming calculator's `get_mean_speed` is the
pool-geometry quotient `length_pool * count_pool / M_IN_KM / duration`; with
pool length 25, pool count 40 and duration 1 it is exactly 1 km/h for every
action count, and at a concrete input it differs from the base
`get_distance() / duration` fallback. -/
theorem swimming_mean_speed_pool_geometry :
    (∀ t : Swimming, t.get_mean_speed
        = pyDiv (t.length_pool * t.count_pool / Training.M_IN_KM) t.duration)
    ∧ (∀ a w : ℚ, Swimming.get_mean_speed ⟨⟨a, 1, w⟩, 25, 40⟩ = some 1)
    ∧ Swimming.get_mean_speed ⟨⟨720, 1, 80⟩, 25, 40⟩
        ≠ pyDiv (Swimming.get_distance ⟨⟨720, 1, 80⟩, 25, 40⟩) 1 := by
  refine ⟨fun t => rfl, ?_, ?_⟩
  · intro a w
    norm_num [Swimming.get_mean_speed, pyDiv, Training.M_IN_KM]
  · norm_num [Swimming.get_mean_speed, Swimming.get_distance, pyDiv,
      Training.M_IN_KM, Swimming.LEN_STEP]

/-- Claim C5: every swimming calculator's `get_spent_calories` is
(mean_speed + 1.1) × 2 × weight × duration, with mean_speed the pool
quotient; at action=720, duration=1, weight=80, pool 25 × 40 it is 336. -/
theorem swimming_calories_formula :
    (∀ t : Swimming, t.duration ≠ 0 →
        t.get_spent_calories
          = some ((t.length_pool * t.count_pool / 1000 / t.duration + 1.1)
                    * 2 * t.weight * t.duration))
    ∧ Swimming.get_spent_calories ⟨⟨720, 1, 80⟩, 25, 40⟩ = some 336 := by
  constructor
  · intro t h
    simp [Swimming.get_spent_calories, Swimming.get_mean_speed, pyDiv, h,
      Training.M_IN_KM, Swimming.CALORIES_COTF_5, Swimming.CALORIES_COTF_6]
  · norm_num [Swimming.get_spent_calories, Swimming.get_mean_speed, pyDiv,
      Training.M_IN_KM, Swimming.CALORIES_COTF_5, Swimming.CALORIES_COTF_6]

/-- Witness for C5 at the swimming calculator (720, 1, 80, 25, 40). -/
theorem swimming_calories_formula_witness :
    (1 : ℚ) ≠ 0
    ∧ Swimming.get_spent_calories ⟨⟨720, 1, 80⟩, 25, 40⟩
        = some ((25 * 40 / 1000 / 1 + 1.1) * 2 * 80 * 1) :=
  ⟨by norm_num,
   swimming_calories_formula.1 ⟨⟨720, 1, 80⟩, 25, 40⟩ (by norm_num)⟩

/-- Claim C6: every sports-walking calculator's `get_spent_calories` is
(0.035 × weight + (mean_speed × 0.278)² / (height / 100) × 0.029 × weight)
× (duration × 60), with mean_speed = action × 0.65 / 1000 / duration. -/
theorem walking_calories_formula :
    ∀ t : SportsWalking, t.duration ≠ 0 → t.height ≠ 0 →
      t.get_spent_calories
        = some ((0.035 * t.weight
                  + (t.action * 0.65 / 1000 / t.duration * 0.278) ^ 2 / (t.height / 100)
                    * 0.029 * t.weight)
                * (t.duration * 60)) := by
  intro t hd hh
  simp [SportsWalking.get_spent_calories, SportsWalking.get_mean_speed,
    Training.get_mean_speed, Training.get_distance, pyDiv, hd,
    Training.CM_IN_M, Training.KMH_IN_MSEC, Training.LEN_STEP, Training.M_IN_KM,
    Training.MIN_IN_H, SportsWalking.CALORIES_WEIGHT_MULTIPLIER,
    SportsWalking.CALORIES_SPEED_HEIGHT_MULTIPLIER, div_eq_zero_iff, hh]

/-- Witness for C6 at the walking calculator (9000, 1, 75, 180). -/
theorem walking_calories_formula_witness :
    (1 : ℚ) ≠ 0 ∧ (180 : ℚ) ≠ 0
    ∧ SportsWalking.get_spent_calories ⟨⟨9000, 1, 75⟩, 180⟩
        = some ((0.035 * 75
                  + (9000 * 0.65 / 1000 / 1 * 0.278) ^ 2 / (180 / 100) * 0.029 * 75)
                * (1 * 60)) :=
  ⟨by norm_num, by norm_num,
   walking_calories_formula ⟨⟨9000, 1, 75⟩, 180⟩ (by norm_num) (by norm_num)⟩

/-- Claim C7: `get_distance` is action × 0.65 / 1000 for the base, running
and walking variants and action × 1.38 / 1000 for swimming; for walking with
action=9000 it is 5.85 km, and the mean speed at duration 1 is 5.85 km/h. -/
theorem distance_step_length :
    (∀ t : Training, t.get_distance = t.action * 0.65 / 1000)
    ∧ (∀ t : Running, t.get_distance = t.action * 0.65 / 1000)
    ∧ (∀ t : SportsWalking, t.get_distance = t.action * 0.65 / 1000)
    ∧ (∀ t : Swimming, t.get_distance = t.action * 1.38 / 1000)
    ∧ SportsWalking.get_distance ⟨⟨9000, 1, 75⟩, 180⟩ = 5.85
    ∧ SportsWalking.get_mean_speed ⟨⟨9000, 1, 75⟩, 180⟩ = some 5.85 := by
  refine ⟨fun t => rfl, fun t => rfl, fun t => rfl, fun t => rfl, ?_, ?_⟩
  · norm_num [SportsWalking.get_distance, Training.get_distance, Training.LEN_STEP,
      Training.M_IN_KM]
  · norm_num [SportsWalking.get_mean_speed, Training.get_mean_speed,
      Training.get_distance, pyDiv, Training.LEN_STEP, Training.M_IN_KM]

/-- Claim C8: in the state-passing rendering of the methods, no operation
(distance, mean speed, calories, report building, formatting) changes the
receiver, and running the report builder or the formatter twice yields
identical results. -/
theorem report_idempotent_no_mutation :
    (∀ t : AnyTraining,
      (t.get_distance_st).2 = t
      ∧ (t.get_mean_speed_st).2 = t
      ∧ (t.get_spent_calories_st).2 = t
      ∧ (t.show_training_info_st).2 = t
      ∧ ((t.show_training_info_st).2.show_training_info_st).1
          = (t.show_training_info_st).1)
    ∧ (∀ m : InfoMessage,
      (m.get_message_st).2 = m
      ∧ ((m.get_message_st).2.get_message_st).1 = (m.get_message_st).1) :=
  ⟨fun _ => ⟨rfl, rfl, rfl, rfl, rfl⟩, fun _ => ⟨rfl, rfl⟩⟩

/-- Claim C9, counterexample: the sports-walking calculator
(9000, 1, 75, height=0) has duration 1 > 0, yet its calorie computation and
its report fail with a division-by-zero error, so duration > 0 alone does
not make every calorie computation well-defined. -/
theorem zero_height_breaks_duration_precondition :
    0 < (AnyTraining.wlk ⟨⟨9000, 1, 75⟩, 0⟩).duration
    ∧ (AnyTraining.wlk ⟨⟨9000, 1, 75⟩, 0⟩).get_spent_calories = none
    ∧ (AnyTraining.wlk ⟨⟨9000, 1, 75⟩, 0⟩).show_training_info = none := by
  refine ⟨by norm_num [AnyTraining.duration], ?_, ?_⟩ <;>
    norm_num [AnyTraining.get_spent_calories, AnyTraining.show_training_info,
      AnyTraining.get_mean_speed, AnyTraining.get_distance, AnyTraining.duration,
      SportsWalking.get_spent_calories, SportsWalking.get_mean_speed,
      Training.get_mean_speed, Training.get_distance, pyDiv, Training.LEN_STEP,
      Training.M_IN_KM, Training.CM_IN_M, Training.KMH_IN_MSEC]

/-- Claim C9 (amended): with duration > 0, `get_mean_speed` is well-defined
for every variant, and the calorie computations and reports are
well-defined — for sports walking under the additional (unguarded)
requirement height ≠ 0; with duration = 0, mean speed, calories and report
all fail with a division-by-zero error, which nothing guards against. -/
theorem well_definedness_under_preconditions :
    (∀ t : AnyTraining, 0 < t.duration → t.get_mean_speed.isSome = true)
    ∧ (∀ t : Running, 0 < t.duration →
        t.get_spent_calories.isSome = true
        ∧ (AnyTraining.run t).show_training_info.isSome = true)
    ∧ (∀ t : Swimming, 0 < t.duration →
        t.get_spent_calories.isSome = true
        ∧ (AnyTraining.swm t).show_training_info.isSome = true)
    ∧ (∀ t : SportsWalking, 0 < t.duration → t.height ≠ 0 →
        t.get_spent_calories.isSome = true
        ∧ (AnyTraining.wlk t).show_training_info.isSome = true)
    ∧ (∀ t : AnyTraining, t.duration = 0 →
        t.get_mean_speed = none ∧ t.get_spent_calories = none
        ∧ t.show_training_info = none) := by
  refine ⟨?_, ?_, ?_, ?_, ?_⟩
  · intro t h
    rcases t with u | u | u <;>
      (simp only [AnyTraining.duration] at h;
       simp [AnyTraining.get_mean_speed, Running.get_mean_speed,
         SportsWalking.get_mean_speed, Swimming.get_mean_speed,
         Training.get_mean_speed, pyDiv, h.ne'])
  · intro t h
    constructor <;>
      simp [AnyTraining.show_training_info, AnyTraining.get_mean_speed,
        AnyTraining.get_spent_calories, Running.get_spent_calories,
        Running.get_mean_speed, Training.get_mean_speed, pyDiv, h.ne']
  · intro t h
    constructor <;>
      simp [AnyTraining.show_training_info, AnyTraining.get_mean_speed,
        AnyTraining.get_spent_calories, Swimming.get_spent_calories,
        Swimming.get_mean_speed, pyDiv, h.ne']
  · intro t h hh
    constructor <;>
      simp [AnyTraining.show_training_info, AnyTraining.get_mean_speed,
        AnyTraining.get_spent_calories, SportsWalking.get_spent_calories,
        SportsWalking.get_mean_speed, Training.get_mean_speed, pyDiv, h.ne',
        Training.CM_IN_M, div_eq_zero_iff, hh]
  · intro t h
    rcases t with u | u | u <;>
      simp_all [AnyTraining.get_mean_speed, AnyTraining.get_spent_calories,
        AnyTraining.show_training_info, AnyTraining.duration,
        Running.get_spent_calories, Running.get_mean_speed,
        SportsWalking.get_spent_calories, SportsWalking.get_mean_speed,
        Swimming.get_spent_calories, Swimming.get_mean_speed,
        Training.get_mean_speed, pyDiv]

/-- Witness for the amended C9 at concrete calculators of each variant. -/
theorem well_definedness_under_preconditions_witness :
    (AnyTraining.run ⟨⟨15000, 1, 75⟩⟩).get_mean_speed.isSome = true
    ∧ (Swimming.get_spent_calories ⟨⟨720, 1, 80⟩, 25, 40⟩).isSome = true
    ∧ (SportsWalking.get_spent_calories ⟨⟨9000, 1, 75⟩, 180⟩).isSome = true
    ∧ (AnyTraining.swm ⟨⟨720, 0, 80⟩, 25, 40⟩).get_mean_speed = none :=
  ⟨well_definedness_under_preconditions.1 (AnyTraining.run ⟨⟨15000, 1, 75⟩⟩)
     (by norm_num [AnyTraining.duration]),
   (well_definedness_under_preconditions.2.2.1 ⟨⟨720, 1, 80⟩, 25, 40⟩ (by norm_num)).1,
   (well_definedness_under_preconditions.2.2.2.1 ⟨⟨9000, 1, 75⟩, 180⟩
     (by norm_num) (by norm_num)).1,
   (well_definedness_under_preconditions.2.2.2.2 (AnyTraining.swm ⟨⟨720, 0, 80⟩, 25, 40⟩)
     rfl).1⟩

/-- Claim C10: every report built from a factory-constructed calculator
carries the implementation class name as its training-type field —
"Swimming" for SWM, "Running" for RUN, "SportsWalking" for WLK — and that
label is never the short workout code. -/
theorem factory_report_label_is_class_name :
    ∀ (code : String) (data : List ℚ) (t : AnyTraining) (m : InfoMessage),
      read_package code data = Except.ok t →
      t.show_training_info = some m →
      ((code = "SWM" ∧ m.training_type = "Swimming")
        ∨ (code = "RUN" ∧ m.training_type = "Running")
        ∨ (code = "WLK" ∧ m.training_type = "SportsWalking"))
      ∧ m.training_type ≠ code := by
  intro code data t m hr hs
  have hcn := show_training_info_type_eq t m hs
  rcases read_package_class_name code data t hr with ⟨hc, hn⟩ | ⟨hc, hn⟩ | ⟨hc, hn⟩ <;>
    subst hc <;> rw [hcn, hn]
  · exact ⟨Or.inl ⟨rfl, rfl⟩, by decide⟩
  · exact ⟨Or.inr (Or.inl ⟨rfl, rfl⟩), by decide⟩
  · exact ⟨Or.inr (Or.inr ⟨rfl, rfl⟩), by decide⟩

/-- Witness for C10 at code "RUN" with readings [15000, 1, 75]. -/
theorem factory_report_label_is_class_name_witness :
    (("RUN" = "SWM" ∧ ("Running" : String) = "Swimming")
      ∨ ("RUN" = "RUN" ∧ ("Running" : String) = "Running")
      ∨ ("RUN" = "WLK" ∧ ("Running" : String) = "SportsWalking"))
    ∧ ("Running" : String) ≠ "RUN" :=
  factory_report_label_is_class_name "RUN" [15000, 1, 75]
    (AnyTraining.run ⟨⟨15000, 1, 75⟩⟩) ⟨"Running", 1, 9.75, 9.75, 797.805⟩ rfl
    (by norm_num [AnyTraining.show_training_info, AnyTraining.get_mean_speed,
      AnyTraining.get_spent_calories, AnyTraining.get_distance, AnyTraining.class_name,
      AnyTraining.duration, Running.get_spent_calories, Running.get_mean_speed,
      Running.get_distance, Training.get_mean_speed, Training.get_distance, pyDiv,
      Running.COEF_1, Running.COEF_2, Training.LEN_STEP, Training.M_IN_KM,
      Training.MIN_IN_H])
